import Mathlib

/-!
Verification development for the shell_module subsystem: a persistent
interactive shell session (shell_module/session.py), the one-shot command
runner (shell_module/shell.py), constants (shell_module/constants.py) and
the interactive loop (shell_module/main.py).

Byte streams are modelled as lists of natural numbers below 256; the
text decoding used throughout the source is bytes.decode with the utf-8
codec and replacement of invalid input, modelled by utf8Replace below.
-/

/-- The Unicode replacement character U+FFFD substituted for undecodable
input bytes. -/
def replChar : Char := Char.ofNat 0xFFFD

/-- Whether a byte is a UTF-8 continuation byte (0x80 to 0xBF). -/
def isContByte (c : Nat) : Bool := decide (0x80 ≤ c) && decide (c ≤ 0xBF)

/-- Allowed second byte after a three-byte lead, excluding overlong forms
(lead 0xE0 needs 0xA0 to 0xBF) and surrogates (lead 0xED needs 0x80 to 0x9F). -/
def cont3ok (b c : Nat) : Bool :=
  if b = 0xE0 then decide (0xA0 ≤ c) && decide (c ≤ 0xBF)
  else if b = 0xED then decide (0x80 ≤ c) && decide (c ≤ 0x9F)
  else isContByte c

/-- Allowed second byte after a four-byte lead, excluding overlong forms
(lead 0xF0 needs 0x90 to 0xBF) and values past U+10FFFF (lead 0xF4 needs
0x80 to 0x8F). -/
def cont4ok (b c : Nat) : Bool :=
  if b = 0xF0 then decide (0x90 ≤ c) && decide (c ≤ 0xBF)
  else if b = 0xF4 then decide (0x80 ≤ c) && decide (c ≤ 0x8F)
  else isContByte c

/-- UTF-8 decoding with replacement, following the byte stream left to
right; returns the decoded characters together with a flag recording
whether any invalid input was met.  Invalid or truncated sequences emit
the replacement character and rescan from the offending byte, matching
the replace error handler of bytes.decode in the source. -/
def utf8DecodeGo : Nat → List Nat → List Char × Bool
  | 0, _ => ([], false)
  | _ + 1, [] => ([], false)
  | fuel + 1, b :: rest =>
    if b ≤ 0x7F then
      let r := utf8DecodeGo fuel rest
      (Char.ofNat b :: r.1, r.2)
    else if 0xC2 ≤ b ∧ b ≤ 0xDF then
      match rest with
      | [] => ([replChar], true)
      | c :: rest2 =>
        if isContByte c then
          let r := utf8DecodeGo fuel rest2
          (Char.ofNat ((b - 0xC0) * 0x40 + (c - 0x80)) :: r.1, r.2)
        else
          let r := utf8DecodeGo fuel (c :: rest2)
          (replChar :: r.1, true)
    else if 0xE0 ≤ b ∧ b ≤ 0xEF then
      match rest with
      | [] => ([replChar], true)
      | c :: rest2 =>
        if cont3ok b c then
          match rest2 with
          | [] => ([replChar], true)
          | d :: rest3 =>
            if isContByte d then
              let r := utf8DecodeGo fuel rest3
              (Char.ofNat ((b - 0xE0) * 0x1000 + (c - 0x80) * 0x40 + (d - 0x80)) :: r.1, r.2)
            else
              let r := utf8DecodeGo fuel (d :: rest3)
              (replChar :: r.1, true)
        else
          let r := utf8DecodeGo fuel (c :: rest2)
          (replChar :: r.1, true)
    else if 0xF0 ≤ b ∧ b ≤ 0xF4 then
      match rest with
      | [] => ([replChar], true)
      | c :: rest2 =>
        if cont4ok b c then
          match rest2 with
          | [] => ([replChar], true)
          | d :: rest3 =>
            if isContByte d then
              match rest3 with
              | [] => ([replChar], true)
              | e :: rest4 =>
                if isContByte e then
                  let r := utf8DecodeGo fuel rest4
                  (Char.ofNat ((b - 0xF0) * 0x40000 + (c - 0x80) * 0x1000 +
                    (d - 0x80) * 0x40 + (e - 0x80)) :: r.1, r.2)
                else
                  let r := utf8DecodeGo fuel (e :: rest4)
                  (replChar :: r.1, true)
            else
              let r := utf8DecodeGo fuel (d :: rest3)
              (replChar :: r.1, true)
        else
          let r := utf8DecodeGo fuel (c :: rest2)
          (replChar :: r.1, true)
    else
      let r := utf8DecodeGo fuel rest
      (replChar :: r.1, true)

/-- UTF-8 decoding with replacement of a whole byte list; the fuel of
the worker is the list length, which one step never runs out of since
every step consumes at least one byte. -/
def utf8DecodeAux (bs : List Nat) : List Char × Bool := utf8DecodeGo bs.length bs

/-- Total decoding with replacement: the text produced by
bytes.decode with the replace error handler. -/
def utf8Replace (bs : List Nat) : String := String.mk (utf8DecodeAux bs).1

/-- Strict decoding: some text exactly when the byte sequence is valid
UTF-8, none when decoding meets invalid input. -/
def utf8Strict (bs : List Nat) : Option String :=
  if (utf8DecodeAux bs).2 then none else some (String.mk (utf8DecodeAux bs).1)

/-- Byte values of an ASCII string, used to build concrete byte streams. -/
def asciiBytes (s : String) : List Nat := s.data.map Char.toNat

/-- Whitespace characters removed by the strip and rstrip calls in the
source (ASCII whitespace: space, tab, newline, carriage return, vertical
tab, form feed). -/
def isSpaceChar (c : Char) : Bool :=
  c = ' ' || c = '\t' || c = '\n' || c = '\r' || c = Char.ofNat 11 || c = Char.ofNat 12

/-- Remove trailing whitespace from a character list. -/
def rstripList (cs : List Char) : List Char := (cs.reverse.dropWhile isSpaceChar).reverse

/-- Python str.rstrip on a string. -/
def rstripStr (s : String) : String := String.mk (rstripList s.data)

/-- Python str.strip on a string: leading then trailing whitespace removed. -/
def stripStr (s : String) : String := String.mk (rstripList (s.data.dropWhile isSpaceChar))

/-- Whether the pattern occurs at the start of the character list. -/
def isPrefixChars : List Char → List Char → Bool
  | [], _ => true
  | _ :: _, [] => false
  | a :: as, b :: bs => a = b && isPrefixChars as bs

/-- Whether the pattern occurs anywhere in the character list. -/
def hasInfixFrom (pat : List Char) : List Char → Bool
  | [] => pat.isEmpty
  | c :: rest => isPrefixChars pat (c :: rest) || hasInfixFrom pat rest

/-- The Python membership test pat in s on strings. -/
def containsSub (s pat : String) : Bool := hasInfixFrom pat.data s.data

/-- Operating system kind, as classified by constants.get_os_type. -/
inductive OSType
  | windows
  | linux
  | macos
  | unknown
deriving DecidableEq

/-- Interpreter variant, the shell_type field set by ShellSession._initialize_shell. -/
inductive ShellType
  | powershell
  | cmd
  | bash
  | zsh
deriving DecidableEq

/-- Marker constants from constants.py used to frame the working
directory query. -/
def CWD_MARKER_START : String := "__CWD_START__"

/-- End marker from constants.py. -/
def CWD_MARKER_END : String := "__CWD_END__"

/-- Working directory printing command for Linux and macOS shells. -/
def CMD_PRINT_CWD_LINUX : String := "pwd"

/-- Working directory printing command for PowerShell. -/
def CMD_PRINT_CWD_WINDOWS_POWERSHELL : String := "$PWD.Path"

/-- Working directory printing command for the Windows console shell. -/
def CMD_PRINT_CWD_WINDOWS_CMD : String := "cd"

/-- The commands that leave the interactive loop in main.py. -/
def EXIT_COMMANDS : List String := ["exit", "quit"]

/-- Session state of ShellSession: the process field is none when no
process handle is held, and some rc when a handle exists whose
returncode attribute is rc (none while the child is still running). -/
structure Session where
  process : Option (Option Int)
  shellType : ShellType
  osType : OSType
  currentWorkingDirectory : String
  username : String
  hostname : String
  running : Bool
deriving DecidableEq

/-- The combinations of osType and shellType that _initialize_shell can
produce: PowerShell or the console shell on Windows, bash on Linux, zsh
on macOS. -/
def validCombo (s : Session) : Prop :=
  (s.osType = OSType.windows ∧
    (s.shellType = ShellType.powershell ∨ s.shellType = ShellType.cmd)) ∨
  (s.osType = OSType.linux ∧ s.shellType = ShellType.bash) ∨
  (s.osType = OSType.macos ∧ s.shellType = ShellType.zsh)

instance (s : Session) : Decidable (validCombo s) := by
  unfold validCombo; infer_instance

/-- Line terminator appended to every line written to the interpreter
input: session.py picks carriage return and line feed on Windows and
line feed otherwise. -/
def newlineFor (os : OSType) : String :=
  match os with
  | OSType.windows => "\r\n"
  | _ => "\n"

/-- The plain working directory command chosen by _update_cwd from the
os and shell type; the empty string when the os type is unknown. -/
def cwdCmdFor (os : OSType) (st : ShellType) : String :=
  match os with
  | OSType.windows =>
    match st with
    | ShellType.powershell => CMD_PRINT_CWD_WINDOWS_POWERSHELL
    | _ => CMD_PRINT_CWD_WINDOWS_CMD
  | OSType.linux => CMD_PRINT_CWD_LINUX
  | OSType.macos => CMD_PRINT_CWD_LINUX
  | OSType.unknown => ""

/-- The marker-framed working directory query built by _update_cwd for
each shell variant. -/
def cwdQueryScript (st : ShellType) : String :=
  match st with
  | ShellType.powershell =>
    "Write-Host '" ++ CWD_MARKER_START ++ "'; " ++
      CMD_PRINT_CWD_WINDOWS_POWERSHELL ++ "; Write-Host '" ++ CWD_MARKER_END ++ "'"
  | ShellType.cmd =>
    "echo " ++ CWD_MARKER_START ++ "\n" ++ CMD_PRINT_CWD_WINDOWS_CMD ++ "\n" ++
      "echo " ++ CWD_MARKER_END
  | ShellType.bash =>
    "echo '" ++ CWD_MARKER_START ++ "'; " ++ CMD_PRINT_CWD_LINUX ++
      "; echo '" ++ CWD_MARKER_END ++ "'"
  | ShellType.zsh =>
    "echo '" ++ CWD_MARKER_START ++ "'; " ++ CMD_PRINT_CWD_LINUX ++
      "; echo '" ++ CWD_MARKER_END ++ "'"

/-- The read loop of _update_cwd over the decoded response lines: at most
ten reads, each line stripped; a line holding the start marker turns
capture on, a line holding the end marker stops reading, and non-empty
lines seen while capturing are collected. -/
def parseCwdLoop : Nat → Bool → List String → List String
  | 0, _, _ => []
  | _ + 1, _, [] => []
  | n + 1, cap, raw :: rest =>
    let line := stripStr raw
    if containsSub line CWD_MARKER_START = true then parseCwdLoop n true rest
    else if containsSub line CWD_MARKER_END = true then []
    else if cap = true ∧ line ≠ "" then line :: parseCwdLoop n cap rest
    else parseCwdLoop n cap rest

/-- The selection made by _update_cwd from the captured lines: the first
line whose stripped form is non-empty, stripped. -/
def pickCwd : List String → Option String
  | [] => none
  | l :: ls => if stripStr l ≠ "" then some (stripStr l) else pickCwd ls

/-- Result of one _update_cwd call: the new session state and the lines
written to the interpreter input during the call. -/
structure CwdUpdate where
  session : Session
  writes : List String
deriving DecidableEq

/-- Model of ShellSession._update_cwd.  respLines is the sequence of
lines the interpreter makes available on its output during the call
(reaching the end of the list models read timeout or end of stream);
pyCwd stands for the working directory of the Python process itself,
used by the fallback paths. -/
def updateCwd (s : Session) (respLines : List (List Nat)) (pyCwd : String) : CwdUpdate :=
  if s.process = some none then
    if cwdCmdFor s.osType s.shellType = "" then
      ⟨{ s with currentWorkingDirectory := pyCwd }, []⟩
    else
      let query := cwdQueryScript s.shellType ++ newlineFor s.osType
      let outputLines := parseCwdLoop 10 false (respLines.map utf8Replace)
      match pickCwd outputLines with
      | some newCwd => ⟨{ s with currentWorkingDirectory := newCwd }, [query]⟩
      | none => ⟨s, [query]⟩
  else
    ⟨{ s with currentWorkingDirectory := pyCwd }, []⟩

/-- The capture made by the read_stream helper inside
ShellSession.execute_command: each available line is decoded with
replacement and stripped of trailing whitespace. -/
def readStreamCapture (lines : List (List Nat)) : List String :=
  lines.map (fun bs => rstripStr (utf8Replace bs))

/-- The final join applied by execute_command to the captured lines. -/
def joinLines (ls : List String) : String := String.intercalate "\n" ls

/-- Result of one ShellSession.execute_command call: new session state,
the stdout and stderr strings and the status returned to the caller, and
the lines written to the interpreter input during the call. -/
structure ExecResult where
  session : Session
  stdout : String
  stderr : String
  code : Int
  writes : List String
deriving DecidableEq

/-- Model of ShellSession.execute_command.  stdoutLines and stderrLines
are the output lines the child makes available while the command output
is read; cwdRespLines is the output available during the closing
_update_cwd call.  When no live process is held the call returns the
error triple at once and writes nothing; otherwise the command is
written with the platform newline, both streams are drained, the status
placeholder zero is used, and the working directory is refreshed. -/
def executeCommandSession (s : Session) (command : String)
    (stdoutLines stderrLines cwdRespLines : List (List Nat)) (pyCwd : String) :
    ExecResult :=
  if s.process = some none then
    let w1 := command ++ newlineFor s.osType
    let fullStdout := readStreamCapture stdoutLines
    let fullStderr := readStreamCapture stderrLines
    let u := updateCwd s cwdRespLines pyCwd
    ⟨u.session, joinLines fullStdout, joinLines fullStderr, 0, w1 :: u.writes⟩
  else
    ⟨s, "", "Shell process not running.", -1, []⟩

/-- Model of ShellSession.close: a live process is terminated and the
handle dropped; a dead handle is kept; the running flag always goes
false. -/
def closeSession (s : Session) : Session :=
  match s.process with
  | some none => { s with process := none, running := false }
  | _ => { s with running := false }

/-- What the interactive loop in main.py does with one input line:
leave on an exit command, skip empty input, otherwise run it. -/
inductive LoopAction
  | exitLoop
  | skip
  | run (command : String)
deriving DecidableEq

/-- Python str.lower, modelled over the character list (ASCII case
mapping, which covers the exit commands it is compared against). -/
def toLowerStr (s : String) : String := String.mk (s.data.map Char.toLower)

/-- The dispatch of interactive_shell_loop on one input line. -/
def interactiveStep (input : String) : LoopAction :=
  if toLowerStr (stripStr input) ∈ EXIT_COMMANDS then LoopAction.exitLoop
  else if stripStr input = "" then LoopAction.skip
  else LoopAction.run input

/-- One full turn of the interactive loop: the new session state, the
result handed back by execute_command when it ran, and the lines written
to the interpreter input during the turn. -/
def processInput (s : Session) (input : String)
    (stdoutLines stderrLines cwdRespLines : List (List Nat)) (pyCwd : String) :
    Session × Option (String × String × Int) × List String :=
  match interactiveStep input with
  | LoopAction.exitLoop => (closeSession s, none, [])
  | LoopAction.skip => (s, none, [])
  | LoopAction.run c =>
    let r := executeCommandSession s c stdoutLines stderrLines cwdRespLines pyCwd
    (r.session, some (r.stdout, r.stderr, r.code), r.writes)

/-- The result dataclass of shell.py. -/
structure CommandResult where
  command : String
  stdout : String
  stderr : String
  returncode : Int
  error : Option String
deriving DecidableEq

/-- Splitting a byte stream on the line feed byte, as the streaming loop
of shell.py does with its buffer: the complete lines without their
terminator, and the remainder after the last line feed. -/
def splitLinesBytes : List Nat → List (List Nat) × List Nat
  | [] => ([], [])
  | b :: rest =>
    if b = 10 then
      let p := splitLinesBytes rest
      ([] :: p.1, p.2)
    else
      match splitLinesBytes rest with
      | ([], r) => ([], b :: r)
      | (l :: ls, r) => ((b :: l) :: ls, r)

/-- The text accumulated by the Unix streaming loop of shell.py for one
stream: every complete line is decoded with replacement and stored with
a line feed appended, and a non-empty remainder left after the child
exits is decoded and stored as is. -/
def captureStream (bs : List Nat) : String :=
  let p := splitLinesBytes bs
  String.join (p.1.map (fun l => utf8Replace l ++ "\n")) ++
    (if p.2.isEmpty then "" else utf8Replace p.2)

/-- How one call of the one-shot execute_command in shell.py turns out:
either the child runs to completion with the given stream contents and
exit status, or an exception is raised somewhere inside the try block,
with the stdout pieces accumulated so far and the exception text. -/
inductive ShellExecOutcome
  | ok (stdoutBytes stderrBytes : List Nat) (returncode : Int)
  | raised (stdoutSoFar : List String) (exnText : String)

/-- Model of the one-shot execute_command in shell.py: on completion the
two streams are captured and the child exit status returned; on an
exception the accumulated stdout is joined, the error text goes to
stderr, the status is -1 and the exception is stored in the error
field.  In both cases a CommandResult is returned to the caller. -/
def executeCommandShell (command : String) (o : ShellExecOutcome) : CommandResult :=
  match o with
  | ShellExecOutcome.ok outB errB rc =>
    ⟨command, captureStream outB, captureStream errB, rc, none⟩
  | ShellExecOutcome.raised captured msg =>
    ⟨command, String.join captured, "An unexpected error occurred: " ++ msg, -1, some msg⟩

/-- A live bash session on Linux used as the concrete instance in the
closed statements below. -/
def sampleSession : Session :=
  { process := some none
    shellType := ShellType.bash
    osType := OSType.linux
    currentWorkingDirectory := "/home/user"
    username := "user"
    hostname := "host"
    running := true }

set_option maxHeartbeats 1000000 in
set_option maxRecDepth 4000 in
theorem replMem_go (fuel : Nat) (bs : List Nat) :
    (utf8DecodeGo fuel bs).2 = true → replChar ∈ (utf8DecodeGo fuel bs).1 := by
  induction fuel, bs using utf8DecodeGo.induct <;>
    (intro h;
     simp only [utf8DecodeGo, *, if_true, if_false, ite_true, ite_false, if_pos, if_neg,
       not_false_iff] at h ⊢) <;>
    first
      | exact List.mem_cons_self _ _
      | exact List.mem_cons_of_mem _ (by assumption)
      | simp_all

theorem replMem_of_error (bs : List Nat) (h : (utf8DecodeAux bs).2 = true) :
    replChar ∈ (utf8Replace bs).data := by
  unfold utf8Replace
  exact replMem_go bs.length bs h

theorem splitLinesBytes_single (lb : List Nat) (h : ¬ 10 ∈ lb) :
    splitLinesBytes (lb ++ [10]) = ([lb], []) := by
  induction lb with
  | nil => rfl
  | cons a as ih =>
    have ha : ¬ a = 10 := fun hEq => h (by simp [hEq])
    have ih2 := ih (fun hm => h (List.mem_cons_of_mem _ hm))
    simp only [List.cons_append, splitLinesBytes, if_neg ha]
    rw [show as.append [10] = as ++ [10] from rfl, ih2]

theorem captureStream_single (lb : List Nat) (h : ¬ 10 ∈ lb) :
    captureStream (lb ++ [10]) = utf8Replace lb ++ "\n" := by
  unfold captureStream
  rw [splitLinesBytes_single lb h]
  have h1 : String.join [utf8Replace lb ++ "\n"] = utf8Replace lb ++ "\n" := rfl
  simp [h1]

theorem rstrip_append_nl (t : String) : rstripStr (t ++ "\n") = rstripStr t := by
  unfold rstripStr rstripList
  rw [String.data_append]
  have h1 : ("\n" : String).data = ['\n'] := rfl
  rw [h1, List.reverse_append]
  have h2 : (['\n'] : List Char).reverse = ['\n'] := rfl
  rw [h2, List.singleton_append]
  rw [List.dropWhile_cons_of_pos (by rfl)]

theorem joinLines_single (a : String) : joinLines [a] = a := rfl

/-- Claim C1: for every command that prints exactly one line and exits
with status 0, execution returns a result whose captured stdout equals
that line and whose exit status equals 0.  Shown for both embeddings
named by the claim: the session variant strips the line terminator from
the captured line (t is the line content, without trailing whitespace)
and reports the placeholder status 0, and the one-shot shell.py variant
keeps the terminator and reports the child status 0. -/
theorem claim_C1_one_line_exit_zero
    (s : Session) (c : String) (bs lb : List Nat) (t : String)
    (cwdResp : List (List Nat)) (pyCwd : String)
    (halive : s.process = some none)
    (hdec : utf8Replace bs = t ++ "\n")
    (hline : utf8Replace lb = t)
    (hnolf : ¬ 10 ∈ lb)
    (hws : rstripStr t = t) :
    ((executeCommandSession s c [bs] [] cwdResp pyCwd).stdout = t ∧
     (executeCommandSession s c [bs] [] cwdResp pyCwd).code = 0) ∧
    ((executeCommandShell c (ShellExecOutcome.ok (lb ++ [10]) [] 0)).stdout = t ++ "\n" ∧
     (executeCommandShell c (ShellExecOutcome.ok (lb ++ [10]) [] 0)).returncode = 0) := by
  constructor
  · constructor
    · unfold executeCommandSession
      rw [if_pos halive]
      show joinLines (readStreamCapture [bs]) = t
      unfold readStreamCapture
      simp only [List.map_cons, List.map_nil]
      rw [joinLines_single, hdec, rstrip_append_nl, hws]
    · unfold executeCommandSession
      rw [if_pos halive]
  · constructor
    · show captureStream (lb ++ [10]) = t ++ "\n"
      rw [captureStream_single lb hnolf, hline]
    · rfl

/-- Witness for claim C1 at the line hello. -/
theorem claim_C1_witness :
    sampleSession.process = some none ∧
    utf8Replace (asciiBytes "hello\n") = "hello" ++ "\n" ∧
    utf8Replace (asciiBytes "hello") = "hello" ∧
    ¬ 10 ∈ asciiBytes "hello" ∧
    rstripStr "hello" = "hello" ∧
    ((executeCommandSession sampleSession "echo hello" [asciiBytes "hello\n"] [] [] "/tmp").stdout = "hello" ∧
     (executeCommandSession sampleSession "echo hello" [asciiBytes "hello\n"] [] [] "/tmp").code = 0) ∧
    ((executeCommandShell "echo hello" (ShellExecOutcome.ok (asciiBytes "hello" ++ [10]) [] 0)).stdout = "hello" ++ "\n" ∧
     (executeCommandShell "echo hello" (ShellExecOutcome.ok (asciiBytes "hello" ++ [10]) [] 0)).returncode = 0) :=
  ⟨rfl, by decide, by decide, by decide, by decide,
   claim_C1_one_line_exit_zero sampleSession "echo hello" (asciiBytes "hello\n")
     (asciiBytes "hello") "hello" [] "/tmp" rfl (by decide) (by decide) (by decide) (by decide)⟩

/-- Claim C2 evaluation: the claim says a command whose end marker is
not observed within the timeout comes back with exit status -1 and an
Incomplete flag.  The execute path of session.py has no end marker
protocol and no Incomplete flag at all; when the read loop times out it
returns the captured lines with the placeholder status 0.  Here the
model is evaluated at a command that produced no output before the
timeout (so no end marker was observed): the status is 0, not -1. -/
theorem claim_C2_timeout_status_zero :
    (executeCommandSession sampleSession "sleep 100" [] [] [] "/tmp").code = 0 ∧
    ¬ (executeCommandSession sampleSession "sleep 100" [] [] [] "/tmp").code = -1 := by
  decide

/-- Claim C3 evaluation: the claim says the command and its full
sentinel trailer are written as one compound statement, exactly once
per command.  The code instead writes twice per command: the bare
command, then the marker-framed working directory query from
_update_cwd as a separate round trip; no mid marker and no exit status
query exist.  Evaluated at a concrete command: there are two writes and
the first carries no marker. -/
theorem claim_C3_two_separate_writes :
    (executeCommandSession sampleSession "ls" [] [] [] "/tmp").writes =
      ["ls\n", "echo '__CWD_START__'; pwd; echo '__CWD_END__'\n"] ∧
    (executeCommandSession sampleSession "ls" [] [] [] "/tmp").writes.length = 2 ∧
    containsSub
      (List.headD (executeCommandSession sampleSession "ls" [] [] [] "/tmp").writes "")
      CWD_MARKER_START = false := by
  decide

/-- Counterexample to claim C4: with two non-empty lines between the
markers, _update_cwd stores the first one, not the last one the claim
names. -/
theorem claim_C4_counterexample :
    (updateCwd sampleSession
      (List.map asciiBytes ["__CWD_START__\n", "/first/dir\n", "/second/dir\n", "__CWD_END__\n"])
      "/tmp").session.currentWorkingDirectory = "/first/dir" ∧
    ¬ (updateCwd sampleSession
      (List.map asciiBytes ["__CWD_START__\n", "/first/dir\n", "/second/dir\n", "__CWD_END__\n"])
      "/tmp").session.currentWorkingDirectory = "/second/dir" := by
  decide

/-- Claim C4 as amended: when the marker-framed region spans several
lines, the parser recovers the value as the first non-empty line
strictly after the start marker and before the end marker (each line
stripped of surrounding whitespace).  Stated for a region of two
marker-free non-empty lines. -/
theorem claim_C4_first_nonempty
    (x y : String)
    (hx1 : stripStr x = x) (hx2 : x ≠ "")
    (hx3 : containsSub x CWD_MARKER_START = false) (hx4 : containsSub x CWD_MARKER_END = false)
    (hy1 : stripStr y = y) (hy2 : y ≠ "")
    (hy3 : containsSub y CWD_MARKER_START = false) (hy4 : containsSub y CWD_MARKER_END = false) :
    pickCwd (parseCwdLoop 10 false [CWD_MARKER_START, x, y, CWD_MARKER_END]) = some x := by
  have e1 : stripStr CWD_MARKER_START = CWD_MARKER_START := by decide
  have e2 : containsSub CWD_MARKER_START CWD_MARKER_START = true := by decide
  have e3 : stripStr CWD_MARKER_END = CWD_MARKER_END := by decide
  have e4 : containsSub CWD_MARKER_END CWD_MARKER_START = false := by decide
  have e5 : containsSub CWD_MARKER_END CWD_MARKER_END = true := by decide
  simp only [parseCwdLoop, e1, e2, e3, e4, e5, hx1, hx3, hx4, hy1, hy3, hy4,
    if_true, if_false, ite_true, ite_false]
  simp only [hx2, hy2, and_true, true_and, if_true, ite_true, and_self,
    not_false_iff, if_pos]
  simp [pickCwd, hx1, hx2]

/-- Witness for the amended claim C4. -/
theorem claim_C4_witness :
    pickCwd (parseCwdLoop 10 false
      [CWD_MARKER_START, "/first/dir", "/second/dir", CWD_MARKER_END]) = some "/first/dir" :=
  claim_C4_first_nonempty "/first/dir" "/second/dir"
    (by decide) (by decide) (by decide) (by decide)
    (by decide) (by decide) (by decide) (by decide)

/-- Claim C5: after close() completes, every execute call is rejected:
the caller receives the error result (empty stdout, the error text on
stderr, status -1), nothing is written to any interpreter, and the
session state is left as close left it.  The rejection is the returned
error triple, surfaced in the result rather than raised. -/
theorem claim_C5_closed_session_rejects (s : Session) (c : String)
    (oL eL cL : List (List Nat)) (p : String) :
    executeCommandSession (closeSession s) c oL eL cL p =
      ⟨closeSession s, "", "Shell process not running.", -1, []⟩ := by
  have h : ¬ (closeSession s).process = some none := by
    cases hp : s.process with
    | none => simp [closeSession, hp]
    | some rc =>
      cases rc with
      | none => simp [closeSession, hp]
      | some v => simp [closeSession, hp]
  unfold executeCommandSession
  rw [if_neg h]

/-- Counterexample to claim C6: the interactive loop skips a
whitespace-only input entirely: execute_command is not reached, so no
state query is written and no result with empty stdout and previous
exit status is produced. -/
theorem claim_C6_counterexample :
    (processInput sampleSession "   " [] [] [] "/tmp").2.1 = none ∧
    (processInput sampleSession "   " [] [] [] "/tmp").2.2 = [] ∧
    (processInput sampleSession "   " [] [] [] "/tmp").1 = sampleSession := by
  decide

/-- Claim C6 as amended: an empty or whitespace-only input is skipped
entirely by the interactive loop: no command and no state query is
written to the interpreter, no result is produced, and the session
state, its working directory included, is unchanged.  (The session
stores no exit status at all, so there is no previous status to return
or preserve.) -/
theorem claim_C6_whitespace_skipped (s : Session) (input : String)
    (oL eL cL : List (List Nat)) (p : String) (h : stripStr input = "") :
    processInput s input oL eL cL p = (s, none, []) := by
  unfold processInput interactiveStep
  rw [h]
  have h1 : ¬ toLowerStr "" ∈ EXIT_COMMANDS := by decide
  rw [if_neg h1, if_pos rfl]

/-- Witness for the amended claim C6. -/
theorem claim_C6_witness :
    stripStr " " = "" ∧
    processInput sampleSession " " [] [] [] "/tmp" = (sampleSession, none, []) :=
  ⟨by decide, claim_C6_whitespace_skipped sampleSession " " [] [] [] "/tmp" (by decide)⟩

/-- Claim C7: a byte line that strict UTF-8 decoding rejects is decoded
with the replacement character substituted, and the command capture
completes normally: the caller receives the decoded text as stdout with
the normal status, and no failure is propagated. -/
theorem claim_C7_decode_replace (s : Session) (c : String) (bs : List Nat)
    (cwdResp : List (List Nat)) (p : String)
    (halive : s.process = some none)
    (hbad : utf8Strict bs = none) :
    replChar ∈ (utf8Replace bs).data ∧
    (executeCommandSession s c [bs] [] cwdResp p).stdout = rstripStr (utf8Replace bs) ∧
    (executeCommandSession s c [bs] [] cwdResp p).code = 0 := by
  have hflag : (utf8DecodeAux bs).2 = true := by
    cases hcase : (utf8DecodeAux bs).2 with
    | true => rfl
    | false =>
      unfold utf8Strict at hbad
      rw [hcase] at hbad
      simp at hbad
  refine ⟨replMem_of_error bs hflag, ?_, ?_⟩
  · unfold executeCommandSession
    rw [if_pos halive]
    show joinLines (readStreamCapture [bs]) = _
    unfold readStreamCapture
    simp only [List.map_cons, List.map_nil]
    exact joinLines_single _
  · unfold executeCommandSession
    rw [if_pos halive]

/-- Witness for claim C7 at the invalid byte 0xFF. -/
theorem claim_C7_witness :
    utf8Strict [255] = none ∧
    replChar ∈ (utf8Replace [255]).data ∧
    (executeCommandSession sampleSession "cat data.bin" [[255]] [] [] "/tmp").stdout =
      rstripStr (utf8Replace [255]) ∧
    (executeCommandSession sampleSession "cat data.bin" [[255]] [] [] "/tmp").code = 0 :=
  ⟨by decide,
   claim_C7_decode_replace sampleSession "cat data.bin" [255] [] "/tmp" rfl (by decide)⟩

/-- Claim C8: every command line written to the interpreter input is
terminated with line feed for the POSIX shells (bash, zsh) and with
carriage return plus line feed for the Windows console shell and
PowerShell, for every session the initialisation can produce. -/
theorem claim_C8_newline_convention (s : Session) (c : String)
    (oL eL cL : List (List Nat)) (p : String)
    (hv : validCombo s) (halive : s.process = some none) :
    ((s.shellType = ShellType.bash ∨ s.shellType = ShellType.zsh) →
      (executeCommandSession s c oL eL cL p).writes.head? = some (c ++ "\n")) ∧
    ((s.shellType = ShellType.cmd ∨ s.shellType = ShellType.powershell) →
      (executeCommandSession s c oL eL cL p).writes.head? = some (c ++ "\r\n")) := by
  have hw : (executeCommandSession s c oL eL cL p).writes.head? =
      some (c ++ newlineFor s.osType) := by
    unfold executeCommandSession
    rw [if_pos halive]
    rfl
  constructor <;> intro hst <;> rw [hw] <;>
    rcases hv with ⟨hos, hsh⟩ | ⟨hos, hsh⟩ | ⟨hos, hsh⟩ <;>
    rcases hst with h | h <;>
    simp_all [newlineFor]

/-- Witness for claim C8 on the sample bash session. -/
theorem claim_C8_witness :
    validCombo sampleSession ∧
    (executeCommandSession sampleSession "ls" [] [] [] "/tmp").writes.head? =
      some ("ls" ++ "\n") :=
  ⟨by decide,
   (claim_C8_newline_convention sampleSession "ls" [] [] [] "/tmp" (by decide) rfl).1
     (Or.inl rfl)⟩

/-- Claim C9: the one-shot execute_command of shell.py always hands a
CommandResult back: on an exception inside the try block the result
carries status -1, the exception in the error field, the stdout pieces
accumulated so far joined, and the error text on stderr; on completion
it carries the captured streams and the child status. -/
theorem claim_C9_shell_total (c : String) (captured : List String) (msg : String)
    (outB errB : List Nat) (rc : Int) :
    executeCommandShell c (ShellExecOutcome.raised captured msg) =
      ⟨c, String.join captured, "An unexpected error occurred: " ++ msg, -1, some msg⟩ ∧
    executeCommandShell c (ShellExecOutcome.ok outB errB rc) =
      ⟨c, captureStream outB, captureStream errB, rc, none⟩ :=
  ⟨rfl, rfl⟩

/-- Claim C10: on a live, initialised session, when the marker-framed
working directory query recovers no non-empty line between the markers
(timeout, end of stream, or missing markers), _update_cwd leaves the
whole session state, its working directory included, unchanged. -/
theorem claim_C10_cwd_unchanged (s : Session) (resp : List (List Nat)) (p : String)
    (halive : s.process = some none) (hv : validCombo s)
    (hnone : pickCwd (parseCwdLoop 10 false (resp.map utf8Replace)) = none) :
    (updateCwd s resp p).session = s := by
  have hcmd : ¬ cwdCmdFor s.osType s.shellType = "" := by
    rcases hv with ⟨hos, hsh⟩ | ⟨hos, hsh⟩ | ⟨hos, hsh⟩
    · rcases hsh with h | h <;> (rw [hos, h]; decide)
    · rw [hos, hsh]; decide
    · rw [hos, hsh]; decide
  unfold updateCwd
  rw [if_pos halive, if_neg hcmd]
  simp only [hnone]

/-- Witness for claim C10: no response lines at all. -/
theorem claim_C10_witness :
    pickCwd (parseCwdLoop 10 false (([] : List (List Nat)).map utf8Replace)) = none ∧
    (updateCwd sampleSession [] "/tmp").session = sampleSession :=
  ⟨by decide, claim_C10_cwd_unchanged sampleSession [] "/tmp" rfl (by decide) (by decide)⟩
